import Mathlib

/-!
Verification development for the `agentos` workflow-run core
(`src/models.py`, `src/state.py`, `src/api.py`).

Shallow embedding conventions:
* `datetime` values are modelled as natural numbers (an abstract clock);
  every operation that reads the wall clock in Python takes the current
  time `now : Nat` as an explicit argument.
* Generated UUID strings (`uuid.uuid4()`) are passed in as explicit
  `fresh…` string arguments.
* JSON payloads (`dict[str, Any]`) are modelled as association lists of
  `String × JsonVal`.
* The SQLAlchemy-backed `StateStore` is modelled as a list of
  `RunStateRecord` rows in insertion order; the serialized `state_json`
  blob is modelled as the `RunState` value itself (pydantic JSON
  round-trips these models faithfully).
* Python string-interpolation messages are reproduced up to quoting
  punctuation (no apostrophes).
-/

namespace AgentOS

/-- Decidable equality of `Except` results, so that concrete store
operations can be evaluated by `decide`. -/
instance {ε α : Type} [DecidableEq ε] [DecidableEq α] : DecidableEq (Except ε α) := fun x y =>
  match x, y with
  | .ok a, .ok b =>
    if h : a = b then isTrue (by rw [h]) else isFalse (by simp [h])
  | .error e, .error f =>
    if h : e = f then isTrue (by rw [h]) else isFalse (by simp [h])
  | .ok _, .error _ => isFalse (by simp)
  | .error _, .ok _ => isFalse (by simp)

/-- Status of a workflow run (`RunStatus` in models.py). -/
inductive RunStatus where
  | running
  | paused
  | awaiting_approval
  | completed
  | failed
deriving DecidableEq, Repr

/-- String value of a `RunStatus`, as in the Python `str`-enum. -/
def RunStatus.value : RunStatus → String
  | .running => "running"
  | .paused => "paused"
  | .awaiting_approval => "awaiting_approval"
  | .completed => "completed"
  | .failed => "failed"

/-- Types of events in a workflow run thread (`EventType` in models.py). -/
inductive EventType where
  | user_input
  | step_selected
  | step_result
  | step_error
  | approval_requested
  | approval_received
  | human_escalation
  | paused
  | resumed
  | finalized
  | error_compacted
deriving DecidableEq, Repr

/-- String value of an `EventType`, as in the Python `str`-enum. -/
def EventType.value : EventType → String
  | .user_input => "user_input"
  | .step_selected => "step_selected"
  | .step_result => "step_result"
  | .step_error => "step_error"
  | .approval_requested => "approval_requested"
  | .approval_received => "approval_received"
  | .human_escalation => "human_escalation"
  | .paused => "paused"
  | .resumed => "resumed"
  | .finalized => "finalized"
  | .error_compacted => "error_compacted"

/-- A JSON-ish value stored in an event's `data` payload. -/
inductive JsonVal where
  | str (s : String)
  | bool (b : Bool)
  | num (n : Nat)
  | null
deriving DecidableEq, Repr

/-- Python `Optional[str]` rendered into a JSON payload value. -/
def JsonVal.ofOptStr : Option String → JsonVal
  | some s => .str s
  | none => .null

/-- A single event in a workflow run thread (`WorkflowEvent` in models.py). -/
structure WorkflowEvent where
  id : String
  event_type : EventType
  timestamp : Nat
  data : List (String × JsonVal)
  step_name : Option String
deriving DecidableEq, Repr

/-- Complete state of a single workflow run (`RunState` in models.py). -/
structure RunState where
  run_id : String
  session_id : Option String
  company_name : Option String
  status : RunStatus
  events : List WorkflowEvent
  created_at : Nat
  updated_at : Nat
  retry_counts : List (String × Nat)
  idempotency_key : Option String
deriving DecidableEq, Repr

/-- Append an event and update the timestamp (`RunState.append_event`).
The Python method reads `datetime.now()`; here the clock value is the
explicit argument `now`. -/
def RunState.append_event (run : RunState) (event : WorkflowEvent) (now : Nat) : RunState :=
  { run with events := run.events ++ [event], updated_at := now }

/-- One row of the `workflow_runs` table (`RunStateRecord` in state.py).
The `state_json` column holds the serialized `RunState`, modelled as the
value itself. -/
structure RunStateRecord where
  run_id : String
  session_id : Option String
  company_name : Option String
  status : String
  state_json : RunState
  idempotency_key : Option String
  created_at : Nat
  updated_at : Nat
deriving DecidableEq, Repr

/-- The store contents: the rows of `workflow_runs` in insertion order. -/
abbrev Store := List RunStateRecord

/-- Distinct error surfaced by the store on an idempotency-key
uniqueness violation (the SQL `unique=True` constraint on the
`idempotency_key` column firing during INSERT). -/
inductive SaveError where
  | uniqueViolation (key : String)
deriving DecidableEq, Repr

namespace StateStore

/-- A fresh row for an insert, with all columns taken from the run,
as built in the `else` branch of `StateStore.save`. -/
def newRecord (run : RunState) : RunStateRecord :=
  { run_id := run.run_id
    session_id := run.session_id
    company_name := run.company_name
    status := run.status.value
    state_json := run
    idempotency_key := run.idempotency_key
    created_at := run.created_at
    updated_at := run.updated_at }

/-- Overwrite of the mutable columns of an existing row by
`StateStore.save` (`status`, `state_json`, `company_name`,
`updated_at`); rows with a different primary key, and the
`idempotency_key` column, are untouched. -/
def updateRow (run : RunState) (r : RunStateRecord) : RunStateRecord :=
  if r.run_id == run.run_id then
    { r with status := run.status.value
             state_json := run
             company_name := run.company_name
             updated_at := run.updated_at }
  else r

/-- Upsert a RunState into the store (`StateStore.save`).
If a row with the run's primary key exists, overwrite its mutable
columns (`status`, `state_json`, `company_name`, `updated_at`); the
`idempotency_key` column of an existing row is not written.  Otherwise
insert a full new row; the INSERT hits the unique index on
`idempotency_key`, surfacing a `uniqueViolation` when another row
already holds the same non-null key. -/
def save (store : Store) (run : RunState) : Except SaveError Store :=
  if store.any (fun r => r.run_id == run.run_id) then
    Except.ok (store.map (updateRow run))
  else
    match run.idempotency_key with
    | some k =>
      if store.any (fun r => r.idempotency_key == some k) then
        Except.error (SaveError.uniqueViolation k)
      else
        Except.ok (store ++ [newRecord run])
    | none => Except.ok (store ++ [newRecord run])

/-- Load a RunState by its run_id (`StateStore.load`): the deserialized
`state_json` blob of the row with that primary key. -/
def load (store : Store) (run_id : String) : Option RunState :=
  (store.find? (fun r => r.run_id == run_id)).map (fun r => r.state_json)

/-- Find a RunState by its idempotency key
(`StateStore.find_by_idempotency_key`): first matching row. -/
def find_by_idempotency_key (store : Store) (key : String) : Option RunState :=
  (store.find? (fun r => r.idempotency_key == some key)).map (fun r => r.state_json)

/-- Find all RunStates associated with a session (`StateStore.find_by_session`). -/
def find_by_session (store : Store) (session_id : String) : List RunState :=
  (store.filter (fun r => r.session_id == some session_id)).map (fun r => r.state_json)

/-- List all runs that are not completed or failed (`StateStore.list_active`):
rows whose `status` column is in the active-status list. -/
def list_active (store : Store) : List RunState :=
  (store.filter (fun r =>
    [RunStatus.running.value, RunStatus.paused.value,
     RunStatus.awaiting_approval.value].contains r.status)).map
    (fun r => r.state_json)

/-- List all runs regardless of status (`StateStore.list_all`). -/
def list_all (store : Store) : List RunState :=
  store.map (fun r => r.state_json)

/-- Modelled from the spec: `StateStore.list_by_status` is called by
`list_runs` in api.py but is not defined in state.py.  Spec section 4.2:
"`list_by_status(status)` ...: returns runs matching an exact status"
with filtering "done at the database level", i.e. on the `status`
column. -/
def list_by_status (store : Store) (status : RunStatus) : List RunState :=
  (store.filter (fun r => r.status == status.value)).map (fun r => r.state_json)

/-- Result of the atomic create-or-fetch: whether a new run was created,
and the authoritative stored run. -/
structure CreateOrGetResult where
  created : Bool
  run_state : RunState
deriving DecidableEq, Repr

/-- Modelled from the spec: `StateStore.create_or_get_by_idempotency` is
called by `launch_run` in api.py but is not defined in state.py.  Spec
section 4.3, strategy (b): "a single atomic create-or-fetch operation at
the store layer" — given an idempotency key, at most one run is created
per key; a caller that loses the race (or arrives later) receives the
winner's run with `created = false`.  A run without an idempotency key
is always inserted (launching without a key never deduplicates). -/
def create_or_get_by_idempotency (store : Store) (run : RunState) :
    CreateOrGetResult × Store :=
  match run.idempotency_key with
  | some k =>
    match find_by_idempotency_key store k with
    | some existing => (⟨false, existing⟩, store)
    | none => (⟨true, run⟩, store ++ [newRecord run])
  | none => (⟨true, run⟩, store ++ [newRecord run])

end StateStore

/-! API layer (api.py): request/response schemas and endpoint handlers.
Each handler takes the store and returns the FastAPI outcome — either an
`HTTPException`-like error or the JSON body — paired with the store after
the call (unchanged on every error path). -/

/-- An `HTTPException` raised by an endpoint: status code and detail. -/
structure HTTPError where
  status_code : Nat
  detail : String
deriving DecidableEq, Repr

/-- Body of `POST /runs` (`LaunchRequest`). -/
structure LaunchRequest where
  company_name : String
  session_id : Option String
  idempotency_key : Option String
deriving DecidableEq, Repr

/-- Response of `POST /runs` (`LaunchResponse`). -/
structure LaunchResponse where
  run_id : String
  status : String
  message : String
deriving DecidableEq, Repr

/-- Body of `POST /runs/{run_id}/resume` (`ResumeRequest`). -/
structure ResumeRequest where
  data : List (String × JsonVal)
deriving DecidableEq, Repr

/-- Run projection returned by the read endpoints (`RunStateResponse`). -/
structure RunStateResponse where
  run_id : String
  status : String
  company_name : Option String
  event_count : Nat
  created_at : Nat
  updated_at : Nat
deriving DecidableEq, Repr

/-- Body of `POST /webhooks/approval` (`WebhookPayload`). -/
structure WebhookPayload where
  run_id : String
  approved : Bool
  responder : Option String
  comment : Option String
deriving DecidableEq, Repr

/-- Plain `dict` response of the pause/resume endpoints. -/
structure OpResponse where
  run_id : String
  status : String
  message : String
deriving DecidableEq, Repr

/-- Response `dict` of the approval webhook. -/
structure WebhookResponse where
  run_id : String
  approved : Bool
  status : String
  message : String
deriving DecidableEq, Repr

/-- The candidate `RunState` built at the top of `launch_run`:
`session_id` falls back to a fresh UUID when the request value is absent
or empty (Python `req.session_id or str(uuid.uuid4())` — the empty
string is falsy), and one `user_input` event is appended. -/
def launch_candidate (req : LaunchRequest)
    (freshRunId freshSessionId freshEventId : String) (now : Nat) : RunState :=
  let run : RunState :=
    { run_id := freshRunId
      session_id := some (match req.session_id with
        | some s => if s = "" then freshSessionId else s
        | none => freshSessionId)
      company_name := some req.company_name
      status := RunStatus.running
      events := []
      created_at := now
      updated_at := now
      retry_counts := []
      idempotency_key := req.idempotency_key }
  run.append_event
    { id := freshEventId
      event_type := EventType.user_input
      timestamp := now
      data := [("company_name", JsonVal.str req.company_name)]
      step_name := none } now

/-- Launch a new workflow run (`launch_run`, `POST /runs`).  Idempotent:
an existing run with the same idempotency key is returned instead of
creating a new one, via the store's atomic create-or-get. -/
def launch_run (req : LaunchRequest)
    (freshRunId freshSessionId freshEventId : String) (now : Nat)
    (store : Store) : LaunchResponse × Store :=
  let run := launch_candidate req freshRunId freshSessionId freshEventId now
  let result := StateStore.create_or_get_by_idempotency store run
  if result.1.created then
    ({ run_id := result.1.run_state.run_id
       status := result.1.run_state.status.value
       message := "Run launched for company " ++ req.company_name ++ "." },
     result.2)
  else
    ({ run_id := result.1.run_state.run_id
       status := result.1.run_state.status.value
       message := "Run already exists (idempotent)." },
     result.2)

/-- Get current state of a workflow run (`get_run`, `GET /runs/{run_id}`). -/
def get_run (run_id : String) (store : Store) : Except HTTPError RunStateResponse :=
  match StateStore.load store run_id with
  | none => Except.error { status_code := 404, detail := "Run not found." }
  | some run =>
    Except.ok
      { run_id := run.run_id
        status := run.status.value
        company_name := run.company_name
        event_count := run.events.length
        created_at := run.created_at
        updated_at := run.updated_at }

/-- The `paused` event appended by `pause_run`. -/
def pauseEvent (eid : String) (now : Nat) : WorkflowEvent :=
  { id := eid
    event_type := EventType.paused
    timestamp := now
    data := [("reason", JsonVal.str "Manual pause via API")]
    step_name := none }

/-- The run state written by a successful `pause_run`: status set to
`paused` and one `paused` event appended. -/
def pausedRun (run : RunState) (eid : String) (now : Nat) : RunState :=
  ({ run with status := RunStatus.paused }).append_event (pauseEvent eid now) now

/-- Pause an active workflow run (`pause_run`, `POST /runs/{run_id}/pause`). -/
def pause_run (run_id : String) (freshEventId : String) (now : Nat)
    (store : Store) : Except HTTPError OpResponse × Store :=
  match StateStore.load store run_id with
  | none => (Except.error { status_code := 404, detail := "Run not found." }, store)
  | some run =>
    if run.status ≠ RunStatus.running then
      (Except.error
        { status_code := 409
          detail := "Cannot pause run in status " ++ run.status.value ++ "." },
       store)
    else
      match StateStore.save store (pausedRun run freshEventId now) with
      | Except.error _ =>
        (Except.error { status_code := 500, detail := "Store error." }, store)
      | Except.ok store' =>
        (Except.ok { run_id := run_id, status := "paused", message := "Run paused." },
         store')

/-- The `resumed` event appended by `resume_run`, carrying the request's
`data` payload. -/
def resumedEvent (req : ResumeRequest) (eid : String) (now : Nat) : WorkflowEvent :=
  { id := eid
    event_type := EventType.resumed
    timestamp := now
    data := req.data
    step_name := none }

/-- The run state written by a successful `resume_run`: status set to
`running` and one `resumed` event appended. -/
def resumedRun (run : RunState) (req : ResumeRequest) (eid : String) (now : Nat) : RunState :=
  ({ run with status := RunStatus.running }).append_event (resumedEvent req eid now) now

/-- Resume a paused or approval-waiting run (`resume_run`,
`POST /runs/{run_id}/resume`). -/
def resume_run (run_id : String) (req : ResumeRequest)
    (freshEventId : String) (now : Nat) (store : Store) :
    Except HTTPError OpResponse × Store :=
  match StateStore.load store run_id with
  | none => (Except.error { status_code := 404, detail := "Run not found." }, store)
  | some run =>
    if run.status ≠ RunStatus.paused ∧ run.status ≠ RunStatus.awaiting_approval then
      (Except.error
        { status_code := 409
          detail := "Cannot resume run in status " ++ run.status.value ++ "." },
       store)
    else
      match StateStore.save store (resumedRun run req freshEventId now) with
      | Except.error _ =>
        (Except.error { status_code := 500, detail := "Store error." }, store)
      | Except.ok store' =>
        (Except.ok { run_id := run_id, status := "running", message := "Run resumed." },
         store')

/-- The `approval_received` event appended by the approval webhook,
recording the approved flag, responder, and comment. -/
def approvalEvent (payload : WebhookPayload) (eid : String) (now : Nat) : WorkflowEvent :=
  { id := eid
    event_type := EventType.approval_received
    timestamp := now
    data := [("approved", JsonVal.bool payload.approved),
             ("responder", JsonVal.ofOptStr payload.responder),
             ("comment", JsonVal.ofOptStr payload.comment)]
    step_name := none }

/-- The run state written by a successful approval webhook: one
`approval_received` event appended, then status set to `running` when
approved and `failed` when denied. -/
def approvalRun (run : RunState) (payload : WebhookPayload) (eid : String) (now : Nat) :
    RunState :=
  { run.append_event (approvalEvent payload eid now) now with
    status := if payload.approved then RunStatus.running else RunStatus.failed }

/-- Receive an external approval webhook and resume or fail the run
(`receive_approval_webhook`, `POST /webhooks/approval`). -/
def receive_approval_webhook (payload : WebhookPayload)
    (freshEventId : String) (now : Nat) (store : Store) :
    Except HTTPError WebhookResponse × Store :=
  match StateStore.load store payload.run_id with
  | none => (Except.error { status_code := 404, detail := "Run not found." }, store)
  | some run =>
    if run.status ≠ RunStatus.awaiting_approval then
      (Except.error
        { status_code := 409
          detail := "Run is not awaiting approval (status: " ++ run.status.value ++ ")." },
       store)
    else
      match StateStore.save store (approvalRun run payload freshEventId now) with
      | Except.error _ =>
        (Except.error { status_code := 500, detail := "Store error." }, store)
      | Except.ok store' =>
        (Except.ok
          { run_id := payload.run_id
            approved := payload.approved
            status := (approvalRun run payload freshEventId now).status.value
            message := if payload.approved then "Approval received."
                       else "Approval denied, run marked as failed." },
         store')

/-- The set `_VALID_STATUSES = {s.value for s in RunStatus}` as a list. -/
def validStatuses : List String :=
  [RunStatus.running.value, RunStatus.paused.value,
   RunStatus.awaiting_approval.value, RunStatus.completed.value,
   RunStatus.failed.value]

/-- Python `RunStatus(status)`: the enum member with the given string
value, or none (a `ValueError`) when the string is not a valid value. -/
def RunStatus.fromValue? (s : String) : Option RunStatus :=
  if s = "running" then some .running
  else if s = "paused" then some .paused
  else if s = "awaiting_approval" then some .awaiting_approval
  else if s = "completed" then some .completed
  else if s = "failed" then some .failed
  else none

/-- Detail message of the 400 rejection of an unknown status filter:
names the offending value and lists `sorted(_VALID_STATUSES)`. -/
def invalidStatusDetail (status : String) : String :=
  "Invalid status " ++ status ++
    ". Valid values: awaiting_approval, completed, failed, paused, running."

/-- Projection of a run into a `RunStateResponse` row, as built in the
list comprehension of `list_runs`. -/
def toRunStateResponse (r : RunState) : RunStateResponse :=
  { run_id := r.run_id
    status := r.status.value
    company_name := r.company_name
    event_count := r.events.length
    created_at := r.created_at
    updated_at := r.updated_at }

/-- List workflow runs, optionally filtered by status (`list_runs`,
`GET /runs?status=`).  A provided non-empty status (Python `if status:`
is falsy on the empty string) is validated against the `RunStatus`
values; without a filter only active runs are returned. -/
def list_runs (store : Store) : Option String → Except HTTPError (List RunStateResponse)
  | some s =>
    if s = "" then
      Except.ok ((StateStore.list_active store).map toRunStateResponse)
    else
      match RunStatus.fromValue? s with
      | some st =>
        Except.ok ((StateStore.list_by_status store st).map toRunStateResponse)
      | none =>
        Except.error { status_code := 400, detail := invalidStatusDetail s }
  | none => Except.ok ((StateStore.list_active store).map toRunStateResponse)

/-! Helper lemmas about the store. -/

/-- A successful load means some row carries the requested primary key. -/
theorem any_run_id_of_load {store : Store} {id : String} {run : RunState}
    (h : StateStore.load store id = some run) :
    store.any (fun r => r.run_id == id) = true := by
  unfold StateStore.load at h
  rcases hf : store.find? (fun r => r.run_id == id) with _ | rec
  · rw [hf] at h; simp at h
  · have hp : (fun r => r.run_id == id) rec = true :=
      List.find?_some (p := fun (r : RunStateRecord) => r.run_id == id) hf
    exact List.any_eq_true.mpr ⟨rec, List.mem_of_find?_eq_some hf, hp⟩

/-- Predicate failing on every row means `find?` returns nothing. -/
theorem find_none_of_any_false {store : Store} {p : RunStateRecord → Bool}
    (h : store.any p = false) : store.find? p = none := by
  refine List.find?_eq_none.mpr (fun r hr => ?_)
  simpa using List.any_eq_false.mp h r hr

/-- Loading the saved run's primary key after the update pass of `save`
yields exactly the saved run, provided some row carried that key. -/
theorem load_map_updateRow (store : Store) (run : RunState)
    (h : store.any (fun r => r.run_id == run.run_id) = true) :
    StateStore.load (store.map (StateStore.updateRow run)) run.run_id = some run := by
  induction store with
  | nil => simp at h
  | cons r rs ih =>
    by_cases hr : (r.run_id == run.run_id) = true
    · have hupd : StateStore.updateRow run r =
        { r with status := run.status.value
                 state_json := run
                 company_name := run.company_name
                 updated_at := run.updated_at } := by
        simp [StateStore.updateRow, hr]
      have hpos : ((StateStore.updateRow run r).run_id == run.run_id) = true := by
        rw [hupd]; exact hr
      simp only [StateStore.load, List.map_cons]
      rw [List.find?_cons_of_pos (p := fun (x : RunStateRecord) => x.run_id == run.run_id) _ hpos]
      rw [hupd]
      rfl
    · have hupd : StateStore.updateRow run r = r := by
        simp [StateStore.updateRow, hr]
      have hneg : ¬ ((StateStore.updateRow run r).run_id == run.run_id) = true := by
        rw [hupd]; exact hr
      have htail : rs.any (fun x => x.run_id == run.run_id) = true := by
        rcases List.any_eq_true.mp h with ⟨x, hx, hpx⟩
        rcases List.mem_cons.mp hx with rfl | hx'
        · exact absurd hpx hr
        · exact List.any_eq_true.mpr ⟨x, hx', hpx⟩
      have ihr := ih htail
      simp only [StateStore.load, List.map_cons] at ihr ⊢
      rw [List.find?_cons_of_neg (p := fun (x : RunStateRecord) => x.run_id == run.run_id) _ hneg]
      exact ihr

/-- The update pass of `save`, packaged: when the key is present, save
succeeds and the saved run is what a subsequent load returns. -/
theorem save_update_load {store : Store} {run : RunState}
    (h : store.any (fun r => r.run_id == run.run_id) = true) :
    StateStore.save store run = Except.ok (store.map (StateStore.updateRow run)) ∧
    StateStore.load (store.map (StateStore.updateRow run)) run.run_id = some run := by
  constructor
  · simp [StateStore.save, h]
  · exact load_map_updateRow store run h

/-- Find over an appended store, when the first part has no match. -/
theorem find_append_of_none {l1 l2 : Store} {p : RunStateRecord → Bool}
    (h : l1.find? p = none) : (l1 ++ l2).find? p = l2.find? p := by
  rw [List.find?_append, h, Option.none_or]

/-- String-value comparison of two statuses agrees with direct
comparison: `RunStatus.value` is injective. -/
theorem runStatus_beq_value (a b : RunStatus) :
    (a.value == b.value) = (a == b) := by
  cases a <;> cases b <;> decide

/-! Sample data used to instantiate the claim theorems on concrete
inputs. -/

/-- A sample run with a chosen id, status, and idempotency key. -/
def runWith (id : String) (st : RunStatus) (key : Option String) : RunState :=
  { run_id := id
    session_id := some ("sess-" ++ id)
    company_name := some "Acme"
    status := st
    events := []
    created_at := 0
    updated_at := 0
    retry_counts := []
    idempotency_key := key }

/-! Claims. -/

/-- C6: for every RunState, a successful save followed by a load with
the same run_id returns a run identical to the saved one — in
particular the event log, status, and retry counters round-trip through
the store. -/
theorem save_load_round_trip (store : Store) (run : RunState) (store' : Store)
    (h : StateStore.save store run = Except.ok store') :
    StateStore.load store' run.run_id = some run := by
  unfold StateStore.save at h
  by_cases hany : store.any (fun r => r.run_id == run.run_id) = true
  · rw [if_pos hany, Except.ok.injEq] at h
    subst h
    exact load_map_updateRow store run hany
  · rw [if_neg hany] at h
    have hanyf : store.any (fun r => r.run_id == run.run_id) = false :=
      Bool.eq_false_iff.mpr hany
    have hfind : store.find? (fun r => r.run_id == run.run_id) = none :=
      find_none_of_any_false hanyf
    cases hik : run.idempotency_key with
    | some k =>
      simp only [hik] at h
      by_cases hdup : store.any (fun r => r.idempotency_key == some k) = true
      · rw [if_pos hdup] at h
        exact absurd h (by simp)
      · rw [if_neg hdup, Except.ok.injEq] at h
        subst h
        unfold StateStore.load
        rw [find_append_of_none hfind]
        simp [StateStore.newRecord]
    | none =>
      simp only [hik, Except.ok.injEq] at h
      subst h
      unfold StateStore.load
      rw [find_append_of_none hfind]
      simp [StateStore.newRecord]

/-- Witness for C6: saving a concrete run into the empty store succeeds,
and loading it back returns the identical run. -/
theorem save_load_round_trip_witness :
    StateStore.load [StateStore.newRecord (runWith "r1" RunStatus.running (some "k1"))]
      (runWith "r1" RunStatus.running (some "k1")).run_id =
      some (runWith "r1" RunStatus.running (some "k1")) :=
  save_load_round_trip [] (runWith "r1" RunStatus.running (some "k1"))
    [StateStore.newRecord (runWith "r1" RunStatus.running (some "k1"))] (by decide)

/-- C3: pause succeeds only when the run is `running` (status becomes
`paused` and exactly one `paused` event is appended); from `paused`,
`awaiting_approval`, `completed`, or `failed` — i.e. any status other
than `running` — it fails with a 409 ConflictingState error and the
store, hence the stored run's status, event log, and timestamps, is
unchanged. -/
theorem pause_guard (run_id eid : String) (now : Nat) (store : Store) (run : RunState)
    (hload : StateStore.load store run_id = some run)
    (hid : run.run_id = run_id) :
    (run.status = RunStatus.running →
      pause_run run_id eid now store =
        (Except.ok { run_id := run_id, status := "paused", message := "Run paused." },
         store.map (StateStore.updateRow (pausedRun run eid now))) ∧
      StateStore.load (store.map (StateStore.updateRow (pausedRun run eid now))) run_id =
        some (pausedRun run eid now) ∧
      (pausedRun run eid now).status = RunStatus.paused ∧
      (pausedRun run eid now).events = run.events ++ [pauseEvent eid now]) ∧
    (run.status ≠ RunStatus.running →
      pause_run run_id eid now store =
        (Except.error { status_code := 409
                        detail := "Cannot pause run in status " ++ run.status.value ++ "." },
         store)) := by
  have hany : store.any (fun r => r.run_id == run_id) = true := any_run_id_of_load hload
  have hrid : (pausedRun run eid now).run_id = run_id := hid
  have hany' : store.any (fun r => r.run_id == (pausedRun run eid now).run_id) = true := by
    rw [hrid]; exact hany
  obtain ⟨hsave, hload'⟩ := save_update_load hany'
  constructor
  · intro hst
    refine ⟨?_, ?_, rfl, rfl⟩
    · unfold pause_run
      simp only [hload]
      rw [if_neg (by simp [hst]), hsave]
    · rw [← hrid]; exact hload'
  · intro hst
    unfold pause_run
    simp only [hload]
    rw [if_pos hst]

/-- Witness for C3: pausing a concrete running run succeeds with the
`paused` response, and pausing a concrete completed run is rejected with
a 409 error leaving the store unchanged. -/
theorem pause_guard_witness :
    (pause_run "r1" "e2" 5 [StateStore.newRecord (runWith "r1" RunStatus.running none)]).1 =
      Except.ok { run_id := "r1", status := "paused", message := "Run paused." } ∧
    pause_run "c1" "e2" 5 [StateStore.newRecord (runWith "c1" RunStatus.completed none)] =
      (Except.error { status_code := 409
                      detail := "Cannot pause run in status completed." },
       [StateStore.newRecord (runWith "c1" RunStatus.completed none)]) := by
  constructor
  · have h := pause_guard "r1" "e2" 5
      [StateStore.newRecord (runWith "r1" RunStatus.running none)]
      (runWith "r1" RunStatus.running none) (by decide) rfl
    rw [(h.1 rfl).1]
  · have h := pause_guard "c1" "e2" 5
      [StateStore.newRecord (runWith "c1" RunStatus.completed none)]
      (runWith "c1" RunStatus.completed none) (by decide) rfl
    exact h.2 (by decide)

/-- C4: resume succeeds exactly when the run is `paused` or
`awaiting_approval`, in which case the stored run becomes `running` and
its event log is the previous log plus exactly one `resumed` event; from
any other status it fails with a 409 ConflictingState error and the
store is unchanged. -/
theorem resume_guard (run_id : String) (req : ResumeRequest) (eid : String) (now : Nat)
    (store : Store) (run : RunState)
    (hload : StateStore.load store run_id = some run)
    (hid : run.run_id = run_id) :
    ((run.status = RunStatus.paused ∨ run.status = RunStatus.awaiting_approval) →
      resume_run run_id req eid now store =
        (Except.ok { run_id := run_id, status := "running", message := "Run resumed." },
         store.map (StateStore.updateRow (resumedRun run req eid now))) ∧
      StateStore.load (store.map (StateStore.updateRow (resumedRun run req eid now))) run_id =
        some (resumedRun run req eid now) ∧
      (resumedRun run req eid now).status = RunStatus.running ∧
      (resumedRun run req eid now).events = run.events ++ [resumedEvent req eid now]) ∧
    (¬(run.status = RunStatus.paused ∨ run.status = RunStatus.awaiting_approval) →
      resume_run run_id req eid now store =
        (Except.error { status_code := 409
                        detail := "Cannot resume run in status " ++ run.status.value ++ "." },
         store)) := by
  have hany : store.any (fun r => r.run_id == run_id) = true := any_run_id_of_load hload
  have hrid : (resumedRun run req eid now).run_id = run_id := hid
  have hany' : store.any (fun r => r.run_id == (resumedRun run req eid now).run_id) = true := by
    rw [hrid]; exact hany
  obtain ⟨hsave, hload'⟩ := save_update_load hany'
  constructor
  · intro hst
    refine ⟨?_, ?_, rfl, rfl⟩
    · unfold resume_run
      simp only [hload]
      rw [if_neg (by rcases hst with h | h <;> simp [h]), hsave]
    · rw [← hrid]; exact hload'
  · intro hst
    unfold resume_run
    simp only [hload]
    rw [if_pos (by constructor <;> intro h <;> exact hst (by simp [h]))]

/-- Witness for C4: resuming a concrete awaiting-approval run succeeds
with the `running` response, and resuming a concrete running run is
rejected with a 409 error leaving the store unchanged. -/
theorem resume_guard_witness :
    (resume_run "a1" ⟨[]⟩ "e2" 5
        [StateStore.newRecord (runWith "a1" RunStatus.awaiting_approval none)]).1 =
      Except.ok { run_id := "a1", status := "running", message := "Run resumed." } ∧
    resume_run "r1" ⟨[]⟩ "e2" 5 [StateStore.newRecord (runWith "r1" RunStatus.running none)] =
      (Except.error { status_code := 409
                      detail := "Cannot resume run in status running." },
       [StateStore.newRecord (runWith "r1" RunStatus.running none)]) := by
  constructor
  · have h := resume_guard "a1" ⟨[]⟩ "e2" 5
      [StateStore.newRecord (runWith "a1" RunStatus.awaiting_approval none)]
      (runWith "a1" RunStatus.awaiting_approval none) (by decide) rfl
    rw [(h.1 (Or.inr rfl)).1]
  · have h := resume_guard "r1" ⟨[]⟩ "e2" 5
      [StateStore.newRecord (runWith "r1" RunStatus.running none)]
      (runWith "r1" RunStatus.running none) (by decide) rfl
    exact h.2 (by decide)

/-- C2: on an `awaiting_approval` run, the approval webhook with
`approved = true` sets the status to `running` and with
`approved = false` to `failed`, in both cases appending exactly one
`approval_received` event whose data records the approved flag; on a run
in any other status it fails with a 409 ConflictingState error and the
store is unchanged. -/
theorem approval_webhook_guard (payload : WebhookPayload) (eid : String) (now : Nat)
    (store : Store) (run : RunState)
    (hload : StateStore.load store payload.run_id = some run)
    (hid : run.run_id = payload.run_id) :
    (run.status = RunStatus.awaiting_approval →
      receive_approval_webhook payload eid now store =
        (Except.ok { run_id := payload.run_id
                     approved := payload.approved
                     status := (approvalRun run payload eid now).status.value
                     message := if payload.approved then "Approval received."
                                else "Approval denied, run marked as failed." },
         store.map (StateStore.updateRow (approvalRun run payload eid now))) ∧
      StateStore.load (store.map (StateStore.updateRow (approvalRun run payload eid now)))
          payload.run_id = some (approvalRun run payload eid now) ∧
      (approvalRun run payload eid now).status =
        (if payload.approved then RunStatus.running else RunStatus.failed) ∧
      (approvalRun run payload eid now).events =
        run.events ++ [approvalEvent payload eid now] ∧
      ("approved", JsonVal.bool payload.approved) ∈ (approvalEvent payload eid now).data) ∧
    (run.status ≠ RunStatus.awaiting_approval →
      receive_approval_webhook payload eid now store =
        (Except.error { status_code := 409
                        detail := "Run is not awaiting approval (status: " ++ run.status.value ++ ")." },
         store)) := by
  have hany : store.any (fun r => r.run_id == payload.run_id) = true := any_run_id_of_load hload
  have hrid : (approvalRun run payload eid now).run_id = payload.run_id := hid
  have hany' : store.any
      (fun r => r.run_id == (approvalRun run payload eid now).run_id) = true := by
    rw [hrid]; exact hany
  obtain ⟨hsave, hload'⟩ := save_update_load hany'
  constructor
  · intro hst
    refine ⟨?_, ?_, rfl, rfl, by simp [approvalEvent]⟩
    · unfold receive_approval_webhook
      simp only [hload]
      rw [if_neg (by simp [hst]), hsave]
    · rw [← hrid]; exact hload'
  · intro hst
    unfold receive_approval_webhook
    simp only [hload]
    rw [if_pos hst]

/-- Witness for C2: approving a concrete awaiting-approval run yields
`running`, denying another yields `failed`, and a webhook on a `running`
run is rejected with a 409 error leaving the store unchanged. -/
theorem approval_webhook_guard_witness :
    (receive_approval_webhook ⟨"a1", true, some "admin", none⟩ "e2" 5
        [StateStore.newRecord (runWith "a1" RunStatus.awaiting_approval none)]).1 =
      Except.ok { run_id := "a1"
                  approved := true
                  status := "running"
                  message := "Approval received." } ∧
    (receive_approval_webhook ⟨"a2", false, none, none⟩ "e2" 5
        [StateStore.newRecord (runWith "a2" RunStatus.awaiting_approval none)]).1 =
      Except.ok { run_id := "a2"
                  approved := false
                  status := "failed"
                  message := "Approval denied, run marked as failed." } ∧
    receive_approval_webhook ⟨"r1", true, none, none⟩ "e2" 5
        [StateStore.newRecord (runWith "r1" RunStatus.running none)] =
      (Except.error { status_code := 409
                      detail := "Run is not awaiting approval (status: running)." },
       [StateStore.newRecord (runWith "r1" RunStatus.running none)]) := by
  refine ⟨?_, ?_, ?_⟩
  · have h := approval_webhook_guard ⟨"a1", true, some "admin", none⟩ "e2" 5
      [StateStore.newRecord (runWith "a1" RunStatus.awaiting_approval none)]
      (runWith "a1" RunStatus.awaiting_approval none) (by decide) rfl
    rw [(h.1 rfl).1]
    rfl
  · have h := approval_webhook_guard ⟨"a2", false, none, none⟩ "e2" 5
      [StateStore.newRecord (runWith "a2" RunStatus.awaiting_approval none)]
      (runWith "a2" RunStatus.awaiting_approval none) (by decide) rfl
    rw [(h.1 rfl).1]
    rfl
  · have h := approval_webhook_guard ⟨"r1", true, none, none⟩ "e2" 5
      [StateStore.newRecord (runWith "r1" RunStatus.running none)]
      (runWith "r1" RunStatus.running none) (by decide) rfl
    exact h.2 (by decide)

/-- A concrete store for exercising the save uniqueness constraint: run
"a" is stored holding idempotency key "k", and run "b" is stored with no
key. -/
def dupKeyStore : Store :=
  [StateStore.newRecord (runWith "a" RunStatus.running (some "k")),
   StateStore.newRecord (runWith "b" RunStatus.running none)]

/-- Counterexample for C5: run "a" is already stored with idempotency
key "k"; saving a second run whose run_id "b" differs from "a" but which
carries the same key "k" does NOT fail — because run_id "b" already has
a row, `save` takes the update path, which never writes the
`idempotency_key` column and so never trips the uniqueness constraint. -/
theorem save_duplicate_key_counterexample :
    (runWith "b" RunStatus.paused (some "k")).idempotency_key = some "k" ∧
    (runWith "b" RunStatus.paused (some "k")).run_id ≠
      (runWith "a" RunStatus.running (some "k")).run_id ∧
    StateStore.find_by_idempotency_key dupKeyStore "k" =
      some (runWith "a" RunStatus.running (some "k")) ∧
    ∃ store', StateStore.save dupKeyStore (runWith "b" RunStatus.paused (some "k")) =
      Except.ok store' :=
  ⟨rfl, by decide, by decide, ⟨_, rfl⟩⟩

/-- C5 (amended): for every run already stored with a given
idempotency_key, calling save on a second run whose run_id is not yet
present in the store and that has the same idempotency_key fails with
the distinct uniqueness-violation error, and no updated store contents
are produced (the store is unchanged by the failed save). -/
theorem save_duplicate_key_rejected (store : Store) (run : RunState) (k : String)
    (hkey : run.idempotency_key = some k)
    (hnew : store.any (fun r => r.run_id == run.run_id) = false)
    (hdup : store.any (fun r => r.idempotency_key == some k) = true) :
    StateStore.save store run = Except.error (SaveError.uniqueViolation k) ∧
    ∀ store', StateStore.save store run ≠ Except.ok store' := by
  have h1 : StateStore.save store run = Except.error (SaveError.uniqueViolation k) := by
    unfold StateStore.save
    rw [if_neg (by simp [hnew])]
    simp only [hkey]
    rw [if_pos hdup]
  refine ⟨h1, fun store' hok => ?_⟩
  rw [h1] at hok
  exact Except.noConfusion hok

/-- Witness for C5 (amended): saving a fresh run "b2" carrying key "k"
while run "a" already holds key "k" is rejected with the
uniqueness-violation error. -/
theorem save_duplicate_key_rejected_witness :
    StateStore.save [StateStore.newRecord (runWith "a" RunStatus.running (some "k"))]
      (runWith "b2" RunStatus.running (some "k")) =
      Except.error (SaveError.uniqueViolation "k") :=
  (save_duplicate_key_rejected
    [StateStore.newRecord (runWith "a" RunStatus.running (some "k"))]
    (runWith "b2" RunStatus.running (some "k")) "k" rfl (by decide) (by decide)).1

/-- The candidate run built by `launch_run` keeps the request's
idempotency key. -/
theorem launch_candidate_key (req : LaunchRequest) (fR fS fE : String) (now : Nat) :
    (launch_candidate req fR fS fE now).idempotency_key = req.idempotency_key := rfl

/-- C1: launch is idempotent per key.  First, a launch whose
idempotency_key already has a stored run returns a success response
carrying the existing run's run_id and leaves the store unchanged (no
second run is created).  Second, for two launch requests with the same
key on a store not yet holding that key, both callers receive the same
run_id, the second call does not change the store, and exactly one
stored row holds that key. -/
theorem launch_idempotency :
    (∀ (req : LaunchRequest) (fR fS fE : String) (now : Nat) (store : Store)
        (k : String) (existing : RunState),
      req.idempotency_key = some k →
      StateStore.find_by_idempotency_key store k = some existing →
      launch_run req fR fS fE now store =
        ({ run_id := existing.run_id
           status := existing.status.value
           message := "Run already exists (idempotent)." }, store)) ∧
    (∀ (req1 req2 : LaunchRequest) (f1R f1S f1E f2R f2S f2E : String) (n1 n2 : Nat)
        (store : Store) (k : String),
      req1.idempotency_key = some k →
      req2.idempotency_key = some k →
      StateStore.find_by_idempotency_key store k = none →
      (launch_run req2 f2R f2S f2E n2 (launch_run req1 f1R f1S f1E n1 store).2).1.run_id =
        (launch_run req1 f1R f1S f1E n1 store).1.run_id ∧
      (launch_run req2 f2R f2S f2E n2 (launch_run req1 f1R f1S f1E n1 store).2).2 =
        (launch_run req1 f1R f1S f1E n1 store).2 ∧
      (((launch_run req1 f1R f1S f1E n1 store).2).filter
          (fun r => r.idempotency_key == some k)).length = 1) := by
  constructor
  · intro req fR fS fE now store k existing hkey hfind
    unfold launch_run StateStore.create_or_get_by_idempotency
    simp only [launch_candidate_key, hkey, hfind]
    simp
  · intro req1 req2 f1R f1S f1E f2R f2S f2E n1 n2 store k hk1 hk2 hfind
    have hf : store.find? (fun r => r.idempotency_key == some k) = none := by
      unfold StateStore.find_by_idempotency_key at hfind
      rcases ho : store.find? (fun r => r.idempotency_key == some k) with _ | rec
      · exact ho
      · rw [ho] at hfind; simp at hfind
    have h1 : launch_run req1 f1R f1S f1E n1 store =
        ({ run_id := (launch_candidate req1 f1R f1S f1E n1).run_id
           status := (launch_candidate req1 f1R f1S f1E n1).status.value
           message := "Run launched for company " ++ req1.company_name ++ "." },
         store ++ [StateStore.newRecord (launch_candidate req1 f1R f1S f1E n1)]) := by
      unfold launch_run StateStore.create_or_get_by_idempotency
      simp only [launch_candidate_key, hk1, hfind]
      simp
    have hfind1 : StateStore.find_by_idempotency_key
        (store ++ [StateStore.newRecord (launch_candidate req1 f1R f1S f1E n1)]) k =
        some (launch_candidate req1 f1R f1S f1E n1) := by
      unfold StateStore.find_by_idempotency_key
      rw [find_append_of_none hf]
      have hpk : ((launch_candidate req1 f1R f1S f1E n1).idempotency_key == some k) = true := by
        rw [launch_candidate_key, hk1]; exact beq_self_eq_true _
      simp [List.find?_singleton, StateStore.newRecord, hpk]
    have h2 : launch_run req2 f2R f2S f2E n2
        (store ++ [StateStore.newRecord (launch_candidate req1 f1R f1S f1E n1)]) =
        ({ run_id := (launch_candidate req1 f1R f1S f1E n1).run_id
           status := (launch_candidate req1 f1R f1S f1E n1).status.value
           message := "Run already exists (idempotent)." },
         store ++ [StateStore.newRecord (launch_candidate req1 f1R f1S f1E n1)]) := by
      unfold launch_run StateStore.create_or_get_by_idempotency
      simp only [launch_candidate_key, hk2, hfind1]
      simp
    rw [h1, h2]
    refine ⟨rfl, rfl, ?_⟩
    have hfilter : store.filter (fun r => r.idempotency_key == some k) = [] :=
      List.filter_eq_nil_iff.mpr (fun r hr => by
        simpa using List.find?_eq_none.mp hf r hr)
    rw [List.filter_append, hfilter]
    have hpk : ((launch_candidate req1 f1R f1S f1E n1).idempotency_key == some k) = true := by
      rw [launch_candidate_key, hk1]; exact beq_self_eq_true _
    simp [StateStore.newRecord, hpk]

/-- Witness for C1: a concrete launch pair with key "kk" on the empty
store — the replay returns the first run's id and the store holds
exactly one row for the key; and a replay against a pre-existing run
returns that run's id with the store unchanged. -/
theorem launch_idempotency_witness :
    launch_run ⟨"Acme", none, some "kk"⟩ "r9" "s9" "e9" 7
        [StateStore.newRecord (runWith "r1" RunStatus.running (some "kk"))] =
      ({ run_id := "r1"
         status := "running"
         message := "Run already exists (idempotent)." },
       [StateStore.newRecord (runWith "r1" RunStatus.running (some "kk"))]) ∧
    (launch_run ⟨"Acme", none, some "kk"⟩ "r8" "s8" "e8" 8
        (launch_run ⟨"Acme", none, some "kk"⟩ "r7" "s7" "e7" 7 []).2).1.run_id =
      (launch_run ⟨"Acme", none, some "kk"⟩ "r7" "s7" "e7" 7 []).1.run_id := by
  constructor
  · exact launch_idempotency.1 ⟨"Acme", none, some "kk"⟩ "r9" "s9" "e9" 7
      [StateStore.newRecord (runWith "r1" RunStatus.running (some "kk"))] "kk"
      (runWith "r1" RunStatus.running (some "kk")) rfl (by decide)
  · exact (launch_idempotency.2 ⟨"Acme", none, some "kk"⟩ ⟨"Acme", none, some "kk"⟩
      "r7" "s7" "e7" "r8" "s8" "e8" 7 8 [] "kk" rfl rfl rfl).1

/-- Every status string maps back to its enum member under
`RunStatus.fromValue?`. -/
theorem fromValue_value (st : RunStatus) : RunStatus.fromValue? st.value = some st := by
  cases st <;> rfl

/-- No status has the empty string as its value. -/
theorem value_ne_empty (st : RunStatus) : st.value ≠ "" := by
  cases st <;> decide

/-- C8: `list_active` returns no completed or failed run and every
stored running, paused, or awaiting_approval run; and listing with an
explicit valid status filter returns exactly the stored runs whose
status equals that value.  The hypothesis states the store's invariant
that the normalized `status` column mirrors the serialized run's status
(which every save maintains). -/
theorem listing_filters (store : Store)
    (hwf : ∀ rec ∈ store, rec.status = rec.state_json.status.value) :
    (∀ r ∈ StateStore.list_active store,
        r.status ≠ RunStatus.completed ∧ r.status ≠ RunStatus.failed) ∧
    (∀ rec ∈ store,
        (rec.state_json.status = RunStatus.running ∨
         rec.state_json.status = RunStatus.paused ∨
         rec.state_json.status = RunStatus.awaiting_approval) →
        rec.state_json ∈ StateStore.list_active store) ∧
    (∀ st : RunStatus,
        StateStore.list_by_status store st =
          (store.filter (fun rec => rec.state_json.status == st)).map
            (fun rec => rec.state_json) ∧
        list_runs store (some st.value) =
          Except.ok (((store.filter (fun rec => rec.state_json.status == st)).map
            (fun rec => rec.state_json)).map toRunStateResponse)) := by
  have hfilter : ∀ st : RunStatus,
      store.filter (fun rec => rec.status == st.value) =
        store.filter (fun rec => rec.state_json.status == st) := by
    intro st
    exact List.filter_congr (fun rec hin => by
      rw [hwf rec hin, runStatus_beq_value])
  refine ⟨?_, ?_, ?_⟩
  · intro r hr
    rcases List.mem_map.mp hr with ⟨rec, hrecmem, rfl⟩
    obtain ⟨hin, hp⟩ := List.mem_filter.mp hrecmem
    have hs := hwf rec hin
    constructor <;> intro hst <;> rw [hst] at hs <;> rw [hs] at hp <;>
      exact absurd hp (by decide)
  · intro rec hin hst
    refine List.mem_map.mpr ⟨rec, List.mem_filter.mpr ⟨hin, ?_⟩, rfl⟩
    rw [hwf rec hin]
    rcases hst with h | h | h <;> rw [h] <;> decide
  · intro st
    have hbystatus : StateStore.list_by_status store st =
        (store.filter (fun rec => rec.state_json.status == st)).map
          (fun rec => rec.state_json) := by
      unfold StateStore.list_by_status
      rw [hfilter st]
    refine ⟨hbystatus, ?_⟩
    simp only [list_runs]
    rw [if_neg (value_ne_empty st)]
    simp only [fromValue_value]
    rw [hbystatus]

/-- Witness for C8: on a concrete two-row store (one running, one
completed) the active listing is exactly the running run, and filtering
by `completed` returns exactly the completed run. -/
theorem listing_filters_witness :
    StateStore.list_active
        [StateStore.newRecord (runWith "r1" RunStatus.running none),
         StateStore.newRecord (runWith "c1" RunStatus.completed none)] =
      [runWith "r1" RunStatus.running none] ∧
    list_runs
        [StateStore.newRecord (runWith "r1" RunStatus.running none),
         StateStore.newRecord (runWith "c1" RunStatus.completed none)]
        (some RunStatus.completed.value) =
      Except.ok [toRunStateResponse (runWith "c1" RunStatus.completed none)] := by
  have h := listing_filters
    [StateStore.newRecord (runWith "r1" RunStatus.running none),
     StateStore.newRecord (runWith "c1" RunStatus.completed none)]
    (by decide)
  constructor
  · decide
  · have h2 := (h.2.2 RunStatus.completed).2
    rw [h2]
    decide

/-- Counterexample for C9: the empty string is not in the status
enumeration, yet `GET /runs?status=` with the empty string is not
rejected with a 400 — Python `if status:` treats the empty string as an
omitted filter, so the endpoint returns the active-run success response
(here, zero runs) instead of an InvalidInput error. -/
theorem list_runs_empty_status_counterexample :
    "" ∉ validStatuses ∧ list_runs [] (some "") = Except.ok [] := by
  exact ⟨by decide, rfl⟩

/-- C9 (amended): for every non-empty status string outside the known
enumeration, `GET /runs?status=` fails with a 400 InvalidInput error
whose message lists the valid values; this rejection is distinct from a
success with zero runs; and omitting the filter returns active runs
only. -/
theorem list_runs_unknown_status (store : Store) (s : String)
    (hne : s ≠ "") (hval : s ∉ validStatuses) :
    list_runs store (some s) =
      Except.error { status_code := 400, detail := invalidStatusDetail s } ∧
    invalidStatusDetail s = "Invalid status " ++ s ++
      ". Valid values: awaiting_approval, completed, failed, paused, running." ∧
    (∀ l : List RunStateResponse, list_runs store (some s) ≠ Except.ok l) ∧
    list_runs store none =
      Except.ok ((StateStore.list_active store).map toRunStateResponse) := by
  have h5 : s ≠ "running" ∧ s ≠ "paused" ∧ s ≠ "awaiting_approval" ∧
      s ≠ "completed" ∧ s ≠ "failed" := by
    refine ⟨?_, ?_, ?_, ?_, ?_⟩ <;> intro h <;>
      exact hval (by simp [validStatuses, RunStatus.value, h])
  have hfv : RunStatus.fromValue? s = none := by
    unfold RunStatus.fromValue?
    rw [if_neg h5.1, if_neg h5.2.1, if_neg h5.2.2.1, if_neg h5.2.2.2.1,
      if_neg h5.2.2.2.2]
  have h400 : list_runs store (some s) =
      Except.error { status_code := 400, detail := invalidStatusDetail s } := by
    simp only [list_runs]
    rw [if_neg hne]
    simp only [hfv]
  refine ⟨h400, rfl, fun l hl => ?_, rfl⟩
  rw [h400] at hl
  exact Except.noConfusion hl

/-- Witness for C9 (amended): the unknown status "banana" is rejected
with the 400 error naming the valid values. -/
theorem list_runs_unknown_status_witness :
    list_runs [] (some "banana") =
      Except.error { status_code := 400, detail := invalidStatusDetail "banana" } :=
  (list_runs_unknown_status [] "banana" (by decide) (by decide)).1

/-- Rows present after the atomic create-or-get are either pre-existing
rows or the inserted row for the candidate run. -/
theorem mem_create_or_get {store : Store} {run : RunState} {rec : RunStateRecord}
    (h : rec ∈ (StateStore.create_or_get_by_idempotency store run).2) :
    rec ∈ store ∨ rec = StateStore.newRecord run := by
  unfold StateStore.create_or_get_by_idempotency at h
  rcases hik : run.idempotency_key with _ | k
  · simp only [hik] at h
    rcases List.mem_append.mp h with h' | h'
    · exact Or.inl h'
    · exact Or.inr (by simpa using h')
  · simp only [hik] at h
    rcases hfk : StateStore.find_by_idempotency_key store k with _ | ex
    · simp only [hfk] at h
      rcases List.mem_append.mp h with h' | h'
      · exact Or.inl h'
      · exact Or.inr (by simpa using h')
    · simp only [hfk] at h
      exact Or.inl h

/-- The store returned by `launch_run` is the store returned by the
atomic create-or-get on the candidate run. -/
theorem launch_run_store (req : LaunchRequest) (fR fS fE : String) (now : Nat)
    (store : Store) :
    (launch_run req fR fS fE now store).2 =
      (StateStore.create_or_get_by_idempotency store
        (launch_candidate req fR fS fE now)).2 := by
  unfold launch_run
  dsimp only
  split <;> rfl

/-- C10: every run created through the launch endpoint is stored with a
non-null session_id.  The candidate run always carries `some` session
id; a request omitting session_id (or sending the falsy empty string)
gets the freshly generated UUID; and every row the launch adds to the
store has a non-null session_id column. -/
theorem launch_session_id_nonnull :
    ∀ (req : LaunchRequest) (fR fS fE : String) (now : Nat) (store : Store),
      (launch_candidate req fR fS fE now).session_id ≠ none ∧
      (req.session_id = none →
        (launch_candidate req fR fS fE now).session_id = some fS) ∧
      (∀ rec ∈ (launch_run req fR fS fE now store).2,
        rec ∈ store ∨ rec.session_id ≠ none) := by
  intro req fR fS fE now store
  have hsid : (launch_candidate req fR fS fE now).session_id =
      some (match req.session_id with
        | some s => if s = "" then fS else s
        | none => fS) := rfl
  refine ⟨by rw [hsid]; exact fun h => Option.noConfusion h, ?_, ?_⟩
  · intro h
    rw [hsid, h]
  · intro rec hrec
    rw [launch_run_store] at hrec
    rcases mem_create_or_get hrec with h | h
    · exact Or.inl h
    · refine Or.inr ?_
      have : rec.session_id = (launch_candidate req fR fS fE now).session_id := by
        rw [h]; rfl
      rw [this, hsid]
      exact fun hc => Option.noConfusion hc

/-- Witness for C10: a concrete launch request omitting session_id gets
the fresh UUID "s1" as its session id. -/
theorem launch_session_id_nonnull_witness :
    (launch_candidate ⟨"Acme", none, none⟩ "r1" "s1" "e1" 3).session_id = some "s1" :=
  (launch_session_id_nonnull ⟨"Acme", none, none⟩ "r1" "s1" "e1" 3 []).2.1 rfl

/-- C7: the event log is append-only across the lifecycle operations.
`append_event` adds exactly one event at the end and stamps
`updated_at` with the append time (so `updated_at` never decreases when
the clock does not run backwards); launch only ever appends rows to the
store; and for pause, resume, and the approval webhook — on success or
failure alike — the run's event list after the call extends the event
list before it (nothing is removed or reordered). -/
theorem event_log_append_only :
    (∀ (run : RunState) (e : WorkflowEvent) (now : Nat),
      (run.append_event e now).events = run.events ++ [e] ∧
      (run.append_event e now).updated_at = now) ∧
    (∀ (run : RunState) (e : WorkflowEvent) (now : Nat),
      run.updated_at ≤ now → run.updated_at ≤ (run.append_event e now).updated_at) ∧
    (∀ (req : LaunchRequest) (fR fS fE : String) (now : Nat) (store : Store),
      ∃ rest, (launch_run req fR fS fE now store).2 = store ++ rest) ∧
    (∀ (run_id eid : String) (now : Nat) (store : Store) (run : RunState)
        (res : Except HTTPError OpResponse) (store' : Store) (run' : RunState),
      StateStore.load store run_id = some run → run.run_id = run_id →
      pause_run run_id eid now store = (res, store') →
      StateStore.load store' run_id = some run' →
      ∃ tail, run'.events = run.events ++ tail) ∧
    (∀ (run_id : String) (req : ResumeRequest) (eid : String) (now : Nat) (store : Store)
        (run : RunState) (res : Except HTTPError OpResponse) (store' : Store)
        (run' : RunState),
      StateStore.load store run_id = some run → run.run_id = run_id →
      resume_run run_id req eid now store = (res, store') →
      StateStore.load store' run_id = some run' →
      ∃ tail, run'.events = run.events ++ tail) ∧
    (∀ (payload : WebhookPayload) (eid : String) (now : Nat) (store : Store)
        (run : RunState) (res : Except HTTPError WebhookResponse) (store' : Store)
        (run' : RunState),
      StateStore.load store payload.run_id = some run → run.run_id = payload.run_id →
      receive_approval_webhook payload eid now store = (res, store') →
      StateStore.load store' payload.run_id = some run' →
      ∃ tail, run'.events = run.events ++ tail) := by
  refine ⟨fun run e now => ⟨rfl, rfl⟩, fun run e now h => h, ?_, ?_, ?_, ?_⟩
  · intro req fR fS fE now store
    rw [launch_run_store]
    unfold StateStore.create_or_get_by_idempotency
    rcases hik : (launch_candidate req fR fS fE now).idempotency_key with _ | k
    · simp only [hik]
      exact ⟨_, rfl⟩
    · simp only [hik]
      rcases hfk : StateStore.find_by_idempotency_key store k with _ | ex
      · simp only [hfk]
        exact ⟨_, rfl⟩
      · simp only [hfk]
        exact ⟨[], (List.append_nil store).symm⟩
  · intro run_id eid now store run res store' run' hload hid hp hload'
    by_cases hst : run.status = RunStatus.running
    · have hrid : (pausedRun run eid now).run_id = run_id := hid
      have hany' : store.any
          (fun r => r.run_id == (pausedRun run eid now).run_id) = true := by
        rw [hrid]; exact any_run_id_of_load hload
      obtain ⟨hsave, hloadp⟩ := save_update_load hany'
      have heq : pause_run run_id eid now store =
          (Except.ok { run_id := run_id, status := "paused", message := "Run paused." },
           store.map (StateStore.updateRow (pausedRun run eid now))) := by
        unfold pause_run
        simp only [hload]
        rw [if_neg (by simp [hst]), hsave]
      rw [heq] at hp
      have hsto : store' = store.map (StateStore.updateRow (pausedRun run eid now)) :=
        (congrArg Prod.snd hp).symm
      rw [hsto] at hload'
      rw [← hrid] at hload'
      rw [hloadp] at hload'
      have : run' = pausedRun run eid now := (Option.some.inj hload').symm
      exact ⟨[pauseEvent eid now], by rw [this]; rfl⟩
    · have heq : pause_run run_id eid now store =
          (Except.error { status_code := 409
                          detail := "Cannot pause run in status " ++ run.status.value ++ "." },
           store) := by
        unfold pause_run
        simp only [hload]
        rw [if_pos hst]
      rw [heq] at hp
      have hsto : store' = store := (congrArg Prod.snd hp).symm
      rw [hsto, hload] at hload'
      have : run' = run := (Option.some.inj hload').symm
      exact ⟨[], by rw [this]; simp⟩
  · intro run_id req eid now store run res store' run' hload hid hp hload'
    by_cases hst : run.status = RunStatus.paused ∨ run.status = RunStatus.awaiting_approval
    · have hrid : (resumedRun run req eid now).run_id = run_id := hid
      have hany' : store.any
          (fun r => r.run_id == (resumedRun run req eid now).run_id) = true := by
        rw [hrid]; exact any_run_id_of_load hload
      obtain ⟨hsave, hloadp⟩ := save_update_load hany'
      have heq : resume_run run_id req eid now store =
          (Except.ok { run_id := run_id, status := "running", message := "Run resumed." },
           store.map (StateStore.updateRow (resumedRun run req eid now))) := by
        unfold resume_run
        simp only [hload]
        rw [if_neg (by rcases hst with h | h <;> simp [h]), hsave]
      rw [heq] at hp
      have hsto : store' = store.map (StateStore.updateRow (resumedRun run req eid now)) :=
        (congrArg Prod.snd hp).symm
      rw [hsto] at hload'
      rw [← hrid] at hload'
      rw [hloadp] at hload'
      have : run' = resumedRun run req eid now := (Option.some.inj hload').symm
      exact ⟨[resumedEvent req eid now], by rw [this]; rfl⟩
    · have heq : resume_run run_id req eid now store =
          (Except.error { status_code := 409
                          detail := "Cannot resume run in status " ++ run.status.value ++ "." },
           store) := by
        unfold resume_run
        simp only [hload]
        rw [if_pos (by constructor <;> intro h <;> exact hst (by simp [h]))]
      rw [heq] at hp
      have hsto : store' = store := (congrArg Prod.snd hp).symm
      rw [hsto, hload] at hload'
      have : run' = run := (Option.some.inj hload').symm
      exact ⟨[], by rw [this]; simp⟩
  · intro payload eid now store run res store' run' hload hid hp hload'
    by_cases hst : run.status = RunStatus.awaiting_approval
    · have hrid : (approvalRun run payload eid now).run_id = payload.run_id := hid
      have hany' : store.any
          (fun r => r.run_id == (approvalRun run payload eid now).run_id) = true := by
        rw [hrid]; exact any_run_id_of_load hload
      obtain ⟨hsave, hloadp⟩ := save_update_load hany'
      have heq : receive_approval_webhook payload eid now store =
          (Except.ok { run_id := payload.run_id
                       approved := payload.approved
                       status := (approvalRun run payload eid now).status.value
                       message := if payload.approved then "Approval received."
                                  else "Approval denied, run marked as failed." },
           store.map (StateStore.updateRow (approvalRun run payload eid now))) := by
        unfold receive_approval_webhook
        simp only [hload]
        rw [if_neg (by simp [hst]), hsave]
      rw [heq] at hp
      have hsto : store' =
          store.map (StateStore.updateRow (approvalRun run payload eid now)) :=
        (congrArg Prod.snd hp).symm
      rw [hsto] at hload'
      rw [← hrid] at hload'
      rw [hloadp] at hload'
      have : run' = approvalRun run payload eid now := (Option.some.inj hload').symm
      exact ⟨[approvalEvent payload eid now], by rw [this]; rfl⟩
    · have heq : receive_approval_webhook payload eid now store =
          (Except.error { status_code := 409
                          detail := "Run is not awaiting approval (status: " ++
                            run.status.value ++ ")." },
           store) := by
        unfold receive_approval_webhook
        simp only [hload]
        rw [if_pos hst]
      rw [heq] at hp
      have hsto : store' = store := (congrArg Prod.snd hp).symm
      rw [hsto, hload] at hload'
      have : run' = run := (Option.some.inj hload').symm
      exact ⟨[], by rw [this]; simp⟩

/-- Witness for C7: the monotone-clock conjunct and the pause conjunct
applied at concrete inputs — pausing a concrete running run extends its
event log by a tail. -/
theorem event_log_append_only_witness :
    (runWith "r1" RunStatus.running none).updated_at ≤
      ((runWith "r1" RunStatus.running none).append_event (pauseEvent "e2" 5) 5).updated_at ∧
    ∃ tail, (pausedRun (runWith "r1" RunStatus.running none) "e2" 5).events =
      (runWith "r1" RunStatus.running none).events ++ tail := by
  constructor
  · exact event_log_append_only.2.1 (runWith "r1" RunStatus.running none)
      (pauseEvent "e2" 5) 5 (by decide)
  · exact event_log_append_only.2.2.2.1 "r1" "e2" 5
      [StateStore.newRecord (runWith "r1" RunStatus.running none)]
      (runWith "r1" RunStatus.running none)
      (pause_run "r1" "e2" 5 [StateStore.newRecord (runWith "r1" RunStatus.running none)]).1
      (pause_run "r1" "e2" 5 [StateStore.newRecord (runWith "r1" RunStatus.running none)]).2
      (pausedRun (runWith "r1" RunStatus.running none) "e2" 5)
      (by decide) rfl rfl (by decide)

end AgentOS
